import Mathlib

/-!
Verification development for `src/chatfactory/bot/chat_with_arxiv.py`.

The Python module orchestrates a language model (`self.llm`) and an arXiv
search tool (`self.tool`) : it asks the model for a search intent, forwards
the raw intent text to the tool, renders the returned serialized paper list
as display cards and as a grounding text, and asks the model for a final
grounded answer.

Shallow embedding conventions:
  * Python `None` / strings / lists appearing in the `papers` position are
    modelled by the inductive type `Papers`; Python truthiness of that value
    is `Papers.truthy`.
  * `json.loads` (a standard-library collaborator) is modelled by
    `json_loads`, a recursive-descent parser for the JSON subset the program
    exchanges with the search tool: an array of objects whose fields are
    strings or arrays of strings.  Inputs outside that subset fail to parse.
  * A deserialized paper record is `RawPaper`, whose fields are `Option`s so
    that a missing dictionary key can be represented; Python's
    `paper["k"]`, which raises `KeyError` on a missing key, is `pyKey`.
  * Exceptions are modelled by `Except PyErr`; errors propagate exactly as
    Python exceptions do in this module (nothing is caught).
  * The model backend and the search tool are opaque collaborators: records
    of (deterministic) functions, `LLM` and `Tool`.
  * Construction (`__init__` / `setup_model`) additionally records an
    `Event` trace of collaborator instantiations, so that statements about
    instantiation order ("fails before the tool is constructed") can be made.
-/

/-- Python exceptions relevant to this module. -/
inductive PyErr where
  | keyError (key : String)
  | jsonDecodeError
  | typeError
deriving DecidableEq, Repr

/-- One role-tagged chat message, `{"role": ..., "content": ...}`. -/
structure Message where
  role : String
  content : String
deriving DecidableEq, Repr

/-- Opaque generation-config dictionary, passed through to the backend. -/
def GenerationConfig : Type := List (String × String)

/-- Opaque model-config dictionary, passed through to the backend. -/
def ModelConfig : Type := List (String × String)

/-- A deserialized paper record.  Fields are `Option`s: `none` models a
dictionary in which the key is absent. -/
structure RawPaper where
  title : Option String
  authors : Option (List String)
  summary : Option String
  pdf_url : Option String
deriving DecidableEq, Repr

/-- The dynamic value occupying the `papers` position: Python `None`, a
string (the serialized list as returned by the tool), or a list. -/
inductive Papers where
  | pyNone
  | pyStr (s : String)
  | pyList (l : List RawPaper)
deriving DecidableEq, Repr

/-- Python truthiness of a `Papers` value (`not papers`). -/
def Papers.truthy : Papers → Bool
  | .pyNone => false
  | .pyStr s => s != ""
  | .pyList l => !l.isEmpty

/-- Python truthiness of an optional string (`if system_prompt:`). -/
def optStrTruthy : Option String → Bool
  | none => false
  | some s => s != ""

/-- JSON values of the subset this program exchanges with the search tool. -/
inductive JVal where
  | jstr (s : String)
  | jarr (vs : List JVal)
  | jobj (fields : List (String × JVal))

/-- Skip JSON whitespace. -/
def skipWs : List Char → List Char
  | c :: cs => if c = ' ' ∨ c = '\n' ∨ c = '\t' ∨ c = '\r' then skipWs cs else c :: cs
  | [] => []

/-- Parse the body of a JSON string after the opening quote; returns the
decoded characters and the remaining input. -/
def parseStringBody : List Char → Option (List Char × List Char)
  | [] => none
  | '"' :: cs => some ([], cs)
  | '\\' :: c :: cs =>
    match (match c with
           | '"' => some '"'
           | '\\' => some '\\'
           | '/' => some '/'
           | 'n' => some '\n'
           | 't' => some '\t'
           | 'r' => some '\r'
           | _ => none) with
    | none => none
    | some e =>
      match parseStringBody cs with
      | none => none
      | some (body, rest) => some (e :: body, rest)
  | c :: cs =>
    match parseStringBody cs with
    | none => none
    | some (body, rest) => some (c :: body, rest)

mutual

/-- Parse one JSON value (string, array or object) of the subset. -/
def parseVal : Nat → List Char → Option (JVal × List Char)
  | 0, _ => none
  | Nat.succ fuel, cs =>
    match skipWs cs with
    | '"' :: cs' =>
      match parseStringBody cs' with
      | none => none
      | some (body, rest) => some (JVal.jstr (String.mk body), rest)
    | '[' :: cs' =>
      match skipWs cs' with
      | ']' :: rest => some (JVal.jarr [], rest)
      | cs'' =>
        match parseItems fuel cs'' with
        | none => none
        | some (vs, rest) => some (JVal.jarr vs, rest)
    | '\x7b' :: cs' =>
      match skipWs cs' with
      | '\x7d' :: rest => some (JVal.jobj [], rest)
      | cs'' =>
        match parseFields fuel cs'' with
        | none => none
        | some (fs, rest) => some (JVal.jobj fs, rest)
    | _ => none

/-- Parse the comma-separated items of a non-empty JSON array, consuming the
closing bracket. -/
def parseItems : Nat → List Char → Option (List JVal × List Char)
  | 0, _ => none
  | Nat.succ fuel, cs =>
    match parseVal fuel cs with
    | none => none
    | some (v, rest) =>
      match skipWs rest with
      | ',' :: rest' =>
        match parseItems fuel rest' with
        | none => none
        | some (vs, rest'') => some (v :: vs, rest'')
      | ']' :: rest' => some ([v], rest')
      | _ => none

/-- Parse the comma-separated fields of a non-empty JSON object, consuming
the closing brace. -/
def parseFields : Nat → List Char → Option (List (String × JVal) × List Char)
  | 0, _ => none
  | Nat.succ fuel, cs =>
    match skipWs cs with
    | '"' :: cs' =>
      match parseStringBody cs' with
      | none => none
      | some (key, rest) =>
        match skipWs rest with
        | ':' :: rest' =>
          match parseVal fuel rest' with
          | none => none
          | some (v, rest'') =>
            match skipWs rest'' with
            | ',' :: rest3 =>
              match parseFields fuel rest3 with
              | none => none
              | some (fs, rest4) => some ((String.mk key, v) :: fs, rest4)
            | '\x7d' :: rest3 => some ([(String.mk key, v)], rest3)
            | _ => none
        | _ => none
    | _ => none

end

/-- First binding of a key in a JSON object's field list. -/
def lookupField (fields : List (String × JVal)) (key : String) : Option JVal :=
  match fields.find? (fun p => p.1 = key) with
  | none => none
  | some p => some p.2

/-- Read an optional string-valued field: absent gives `some none`, a string
gives `some (some s)`, any other shape is outside the modelled subset. -/
def optStrField (fields : List (String × JVal)) (key : String) : Option (Option String) :=
  match lookupField fields key with
  | none => some none
  | some (JVal.jstr s) => some (some s)
  | some _ => none

/-- Interpret a JSON array as a list of strings, if it is one. -/
def strListOfJVal : List JVal → Option (List String)
  | [] => some []
  | JVal.jstr s :: rest =>
    match strListOfJVal rest with
    | none => none
    | some ss => some (s :: ss)
  | _ => none

/-- Read an optional field valued by an array of strings. -/
def optStrListField (fields : List (String × JVal)) (key : String) :
    Option (Option (List String)) :=
  match lookupField fields key with
  | none => some none
  | some (JVal.jarr vs) =>
    match strListOfJVal vs with
    | none => none
    | some ss => some (some ss)
  | some _ => none

/-- Interpret one JSON value as a paper record (it must be an object; the
four expected keys may each be absent). -/
def jvalToPaper : JVal → Option RawPaper
  | JVal.jobj fields =>
    match optStrField fields "title" with
    | none => none
    | some title =>
      match optStrListField fields "authors" with
      | none => none
      | some authors =>
        match optStrField fields "summary" with
        | none => none
        | some summary =>
          match optStrField fields "pdf_url" with
          | none => none
          | some pdf_url => some ⟨title, authors, summary, pdf_url⟩
  | _ => none

/-- Interpret a parsed JSON value as a list of paper records. -/
def jvalToPapers : JVal → Option (List RawPaper)
  | JVal.jarr vs => vs.mapM jvalToPaper
  | _ => none

/-- Model of `json.loads` on the serialized paper lists this program
exchanges with the search tool: parse the whole input as a JSON array of
objects whose fields are strings or arrays of strings. -/
def json_loads (s : String) : Option (List RawPaper) :=
  match parseVal (s.length + 16) s.data with
  | none => none
  | some (v, rest) => if skipWs rest = [] then jvalToPapers v else none

/-- Constant `ARXIV_SYSTEM_PROMPT` of the module. -/
def ARXIV_SYSTEM_PROMPT : String := "你擅长给用户推荐学术论文。"

/-- Constant `ARXIV_SEARCH_PROMPT` of the module (the search-intent
extraction system prompt). -/
def ARXIV_SEARCH_PROMPT : String :=
  "任务\n根据用户问题提取关键信息，用于论文搜索。\n\n输入\n用户问题或陈述（字符串）。\n\n输出\nJSON格式，包含以下字段：\n\x7b\n    \"research_field\": [\"<topic1>\", \"<topic2>\"],\n    \"authors\": [\"<author1>\", \"<author2>\"],\n    \"search_order\": \"<sort type>\"\n\x7d\n\n字段说明\nresearch_field：英文研究主题（必须为英文），可以为空。\nauthors：英文论文作者（必须为英文），可以为空。\nsearch_order：检索方法，值为 \"Latest\"（按最新排序）或 \"Relevance\"（按相关度排序）。\n"

/-- Template `ARXIV_CHAT_TEMPLATE`, as filled by
`.format(content=..., message=...)`: the grounded-answer prompt. -/
def ARXIV_CHAT_TEMPLATE (content message : String) : String :=
  "请根据arXiv论文候选集来回答问题，不要编造，若arXiv论文候选集为空，提醒我检查arXiv服务是否可用。\n\narXiv论文候选集：\n\n"
    ++ content ++ "\n\n问题：\n\n" ++ message ++ "\n"

/-- Template `PAPER_CARD_TEMPLATE`, as filled by `.format(index=...,
title=..., authors=..., abstract=..., pdf_url=...)`: one display card. -/
def PAPER_CARD_TEMPLATE (index title authors abstract pdf_url : String) : String :=
  ("\n### [" ++ index ++ ". " ++ title ++ "](" ++ pdf_url ++ ")\n\n")
    ++ ("**Authors:** " ++ authors ++ "\n\n")
    ++ ("**Abstract:** " ++ abstract ++ "\n\n")

/-- Template `PAPER_CARD_MARKDOWN`, as filled by `.format(content=...)`:
the outer scrollable container around the concatenated cards. -/
def PAPER_CARD_MARKDOWN (content : String) : String :=
  "\n<div style=\"flex: 1; overflow-y: auto;\">\n" ++ content ++ "\n</div>\n"

/-- The model-backend collaborator (`self.llm`): an opaque record of
deterministic functions, per the external interface contract. -/
structure LLM where
  model : Option String
  invoke : List Message → Option GenerationConfig → String
  invoke_stream : List Message → Option GenerationConfig → String

/-- The search-tool collaborator (`self.tool`): `call(raw_text,
max_results)` returns the serialized paper list (or an empty value). -/
structure Tool where
  call : String → Int → Papers

/-- The bot instance: exactly the two fields `__init__` assigns,
`self.llm` and `self.tool`. -/
structure ArxivChatBot where
  llm : LLM
  tool : Tool

/-- The `llm_config` dictionary: each of the three keys may be absent. -/
structure LLMConfig where
  engine : Option String
  model : Option String
  model_config : Option ModelConfig

/-- A registered model-backend class: called with `(model, model_config)`. -/
def LLMFactory : Type := Option String → Option ModelConfig → LLM

/-- A registered tool class: called with no arguments. -/
def ToolFactory : Type := Unit → Tool

/-- Collaborator instantiations, to state in which order construction
creates them. -/
inductive Event where
  | modelCreated
  | toolCreated
deriving DecidableEq, Repr

/-- Method `parse_llm_config`: read `engine`, `model`,
`model_config` out of the optional config dictionary (`None` becomes the
empty dictionary; absent keys give `None`). -/
def ArxivChatBot.parse_llm_config (llm_config : Option LLMConfig) :
    Option String × Option String × Option ModelConfig :=
  match llm_config with
  | none => (none, none, none)
  | some c => (c.engine, c.model, c.model_config)

/-- Method `setup_model`: default the engine to `"openai"` when it is
`None`, look it up in `LLM_REGISTRY` (a missing key raises `KeyError`), and
instantiate the class with `(model, model_config)`. -/
def ArxivChatBot.setup_model (llm_registry : List (String × LLMFactory))
    (llm_engine : Option String) (model : Option String)
    (model_config : Option ModelConfig) : Except PyErr LLM :=
  let engine := match llm_engine with
    | none => "openai"
    | some e => e
  match llm_registry.lookup engine with
  | none => Except.error (PyErr.keyError engine)
  | some llm_cls => Except.ok (llm_cls model model_config)

/-- The engine identifier `setup_model` resolves from a config: the
`engine` entry, or `"openai"` when that entry is absent. -/
def resolvedEngine (llm_config : Option LLMConfig) : String :=
  match (ArxivChatBot.parse_llm_config llm_config).1 with
  | none => "openai"
  | some e => e

/-- Constructor `__init__`: parse the config, set up the model, then
instantiate the tool class found at key `"arxiv"` in `TOOL_REGISTRY`.
Alongside the result, the trace of collaborator instantiations is
returned, in the order they happen. -/
def ArxivChatBot.construct (llm_registry : List (String × LLMFactory))
    (tool_registry : List (String × ToolFactory))
    (llm_config : Option LLMConfig) : Except PyErr ArxivChatBot × List Event :=
  let parsed := ArxivChatBot.parse_llm_config llm_config
  match ArxivChatBot.setup_model llm_registry parsed.1 parsed.2.1 parsed.2.2 with
  | Except.error e => (Except.error e, [])
  | Except.ok llm =>
    match tool_registry.lookup "arxiv" with
    | none => (Except.error (PyErr.keyError "arxiv"), [Event.modelCreated])
    | some tool_cls =>
      (Except.ok ⟨llm, tool_cls ()⟩, [Event.modelCreated, Event.toolCreated])

/-- The message-sequence construction of `ArxivChatBot._chat` (lines
113-120): optional system message, then the history replayed as
user/assistant pairs, then the new user message. -/
def ArxivChatBot.buildTurns (message : String) (history : List (String × String))
    (system_prompt : Option String) : List Message :=
  let messages : List Message := []
  let messages := if optStrTruthy system_prompt then
      messages ++ [⟨"system", system_prompt.getD ""⟩]
    else messages
  let messages := if history.length > 0 then
      history.foldl (fun ms qr => ms ++ [⟨"user", qr.1⟩, ⟨"assistant", qr.2⟩]) messages
    else messages
  messages ++ [⟨"user", message⟩]

/-- Method `_chat`: build the turn sequence and invoke the model,
streaming or not according to the flag. -/
def ArxivChatBot._chat (self : ArxivChatBot) (message : String)
    (history : List (String × String)) (system_prompt : Option String)
    (generation_config : Option GenerationConfig) (stream : Bool) : String :=
  let messages := ArxivChatBot.buildTurns message history system_prompt
  if stream then self.llm.invoke_stream messages generation_config
  else self.llm.invoke messages generation_config

/-- Method `_search_from_arxiv`: run `_chat` non-streaming with the
search-intent system prompt, hand the raw response to the tool, and return
`(papers, response)`. -/
def ArxivChatBot._search_from_arxiv (self : ArxivChatBot) (message : String)
    (history : List (String × String)) (generation_config : Option GenerationConfig)
    (max_results : Int) : Papers × String :=
  let response := ArxivChatBot._chat self message history (some ARXIV_SEARCH_PROMPT)
    generation_config false
  let papers := self.tool.call response max_results
  (papers, response)

/-- Subscript access `paper["k"]` on a deserialized record: `KeyError`
when the key is absent. -/
def pyKey {α : Type} (v : Option α) (key : String) : Except PyErr α :=
  match v with
  | some x => Except.ok x
  | none => Except.error (PyErr.keyError key)

/-- The card-accumulation loop of `_generate_paper_cards` (lines 155-162),
with `i` the 0-based position of the first remaining paper: each record
contributes `PAPER_CARD_TEMPLATE` filled with the 1-based index, title,
comma-joined authors, summary and pdf link; a missing key aborts with
`KeyError`. -/
def cardsFromIndex : Nat → List RawPaper → Except PyErr String
  | _, [] => Except.ok ""
  | i, q :: rest =>
    match pyKey q.title "title" with
    | Except.error e => Except.error e
    | Except.ok t =>
      match pyKey q.authors "authors" with
      | Except.error e => Except.error e
      | Except.ok a =>
        match pyKey q.summary "summary" with
        | Except.error e => Except.error e
        | Except.ok ab =>
          match pyKey q.pdf_url "pdf_url" with
          | Except.error e => Except.error e
          | Except.ok u =>
            match cardsFromIndex (i + 1) rest with
            | Except.error e => Except.error e
            | Except.ok tail =>
              Except.ok (PAPER_CARD_TEMPLATE (toString (i + 1)) t
                (String.intercalate ", " a) ab u ++ tail)

/-- The grounding-text loop of `_prepare_message_for_llm` (lines 170-174):
each record contributes the three labelled lines followed by a blank line;
a missing key aborts with `KeyError` (`pdf_url` is never read here). -/
def groundingContent : List RawPaper → Except PyErr String
  | [] => Except.ok ""
  | q :: rest =>
    match pyKey q.title "title" with
    | Except.error e => Except.error e
    | Except.ok t =>
      match pyKey q.authors "authors" with
      | Except.error e => Except.error e
      | Except.ok a =>
        match pyKey q.summary "summary" with
        | Except.error e => Except.error e
        | Except.ok ab =>
          match groundingContent rest with
          | Except.error e => Except.error e
          | Except.ok tail =>
            Except.ok (("题目：" ++ t ++ "\n") ++ ("作者：" ++ String.intercalate ", " a ++ "\n")
              ++ ("摘要：" ++ ab ++ "\n\n") ++ tail)

/-- Method `_generate_paper_cards`: falsy input gives `""` before any
deserialization; otherwise `json.loads` the value (a non-string raises
`TypeError`), render every record as a card and wrap the concatenation once
in `PAPER_CARD_MARKDOWN`. -/
def ArxivChatBot._generate_paper_cards (papers : Papers) : Except PyErr String :=
  if papers.truthy then
    match papers with
    | Papers.pyNone => Except.error PyErr.typeError
    | Papers.pyList _ => Except.error PyErr.typeError
    | Papers.pyStr s =>
      match json_loads s with
      | none => Except.error PyErr.jsonDecodeError
      | some ps =>
        match cardsFromIndex 0 ps with
        | Except.error e => Except.error e
        | Except.ok content => Except.ok (PAPER_CARD_MARKDOWN content)
  else Except.ok ""

/-- Method `_prepare_message_for_llm`: falsy `papers` returns the
message unchanged; otherwise `json.loads` the value and fill
`ARXIV_CHAT_TEMPLATE` with the grounding text and the message. -/
def ArxivChatBot._prepare_message_for_llm (message : String) (papers : Papers) :
    Except PyErr String :=
  if papers.truthy then
    match papers with
    | Papers.pyNone => Except.error PyErr.typeError
    | Papers.pyList _ => Except.error PyErr.typeError
    | Papers.pyStr s =>
      match json_loads s with
      | none => Except.error PyErr.jsonDecodeError
      | some ps =>
        match groundingContent ps with
        | Except.error e => Except.error e
        | Except.ok content => Except.ok (ARXIV_CHAT_TEMPLATE content message)
  else Except.ok message

/-- Method `chat`: search, render cards, prepare the grounding
prompt, final model call.  The method assigns no attribute, so the bot
value is returned unchanged next to the result; an uncaught exception
leaves it unchanged too. -/
def ArxivChatBot.chat (self : ArxivChatBot) (message : String)
    (history_chat : List (String × String)) (history_search : List (String × String))
    (generation_config : Option GenerationConfig) (max_results : Int)
    (stream : Bool) : Except PyErr (String × String × String) × ArxivChatBot :=
  let sr := ArxivChatBot._search_from_arxiv self message history_search
    generation_config max_results
  let papers := sr.1
  let paper_search_query := sr.2
  let result : Except PyErr (String × String × String) :=
    match ArxivChatBot._generate_paper_cards papers with
    | Except.error e => Except.error e
    | Except.ok paper_cards =>
      match ArxivChatBot._prepare_message_for_llm message papers with
      | Except.error e => Except.error e
      | Except.ok messaeg_for_llm =>
        Except.ok (ArxivChatBot._chat self messaeg_for_llm history_chat
          (some ARXIV_SYSTEM_PROMPT) generation_config stream,
          paper_cards, paper_search_query)
  (result, self)

/-- Specification-side rendering of a history: each turn in order as one
user message then one assistant message. -/
def historyTurns : List (String × String) → List Message
  | [] => []
  | (q, r) :: rest => ⟨"user", q⟩ :: ⟨"assistant", r⟩ :: historyTurns rest

/-- Specification-side grounding line for one paper: the three labelled
lines (title, comma-joined authors, summary) followed by a blank line. -/
def groundingLineSpec (q : RawPaper) : String :=
  ("题目：" ++ q.title.getD "" ++ "\n")
    ++ ("作者：" ++ String.intercalate ", " (q.authors.getD []) ++ "\n")
    ++ ("摘要：" ++ q.summary.getD "" ++ "\n\n")

/-- Specification-side grounding text: the papers' lines in input order. -/
def groundingTextSpec : List RawPaper → String
  | [] => ""
  | q :: rest => groundingLineSpec q ++ groundingTextSpec rest

/-- Specification-side display card number `n` for one paper: the card
template filled with the 1-based number, linked title, comma-joined
authors and summary. -/
def cardBlockSpec (n : Nat) (q : RawPaper) : String :=
  PAPER_CARD_TEMPLATE (toString n) (q.title.getD "")
    (String.intercalate ", " (q.authors.getD [])) (q.summary.getD "") (q.pdf_url.getD "")

/-- Specification-side concatenated cards, numbering from `i + 1` on. -/
def cardsTextSpecFrom : Nat → List RawPaper → String
  | _, [] => ""
  | i, q :: rest => cardBlockSpec (i + 1) q ++ cardsTextSpecFrom (i + 1) rest

/-- Specification-side concatenated cards, numbered `1..len`. -/
def cardsTextSpec (l : List RawPaper) : String := cardsTextSpecFrom 0 l

/-- A record that carries the three fields the grounding text reads. -/
def hasGroundingFields (q : RawPaper) : Prop :=
  q.title.isSome ∧ q.authors.isSome ∧ q.summary.isSome

/-- A record that carries all four expected fields. -/
def hasAllFields (q : RawPaper) : Prop :=
  q.title.isSome ∧ q.authors.isSome ∧ q.summary.isSome ∧ q.pdf_url.isSome

/-- A deterministic model backend used to witness the theorems on concrete
inputs. -/
def wLLM : LLM :=
  ⟨some "m0", fun _ _ => "INTENT", fun _ _ => "ANSWER"⟩

/-- A search tool whose call returns the empty value (`None`). -/
def wToolEmpty : Tool := ⟨fun _ _ => Papers.pyNone⟩

/-- A bot wired from the witness collaborators above. -/
def wBotEmpty : ArxivChatBot := ⟨wLLM, wToolEmpty⟩

/-- A serialized one-paper list with all four fields present. -/
def wJson : String :=
  "[\x7b\"title\": \"T\", \"authors\": [\"A\", \"B\"], \"summary\": \"S\", \"pdf_url\": \"U\"\x7d]"

/-- The record `wJson` deserializes to. -/
def wPaper : RawPaper := ⟨some "T", some ["A", "B"], some "S", some "U"⟩

/-- A serialized one-paper list whose record lacks the `pdf_url` key. -/
def cexJson : String :=
  "[\x7b\"title\": \"T\", \"authors\": [\"A\"], \"summary\": \"S\"\x7d]"

/-- The record `cexJson` deserializes to. -/
def cexPaper : RawPaper := ⟨some "T", some ["A"], some "S", none⟩

theorem foldl_turns_eq (H : List (String × String)) (init : List Message) :
    H.foldl (fun ms qr => ms ++ [⟨"user", qr.1⟩, ⟨"assistant", qr.2⟩]) init
      = init ++ historyTurns H := by
  induction H generalizing init with
  | nil => simp [historyTurns]
  | cons qr rest ih =>
    cases qr with
    | mk q r => simp [historyTurns, List.foldl_cons, ih]

theorem length_historyTurns (H : List (String × String)) :
    (historyTurns H).length = 2 * H.length := by
  induction H with
  | nil => simp [historyTurns]
  | cons qr rest ih =>
    cases qr with
    | mk q r => simp [historyTurns, ih]; omega

theorem buildTurns_not_truthy (m : String) (H : List (String × String))
    (sp : Option String) (h : optStrTruthy sp = false) :
    ArxivChatBot.buildTurns m H sp = historyTurns H ++ [⟨"user", m⟩] := by
  unfold ArxivChatBot.buildTurns
  rw [h]
  by_cases hH : H.length > 0
  · simp [hH, foldl_turns_eq]
  · have : H = [] := by
      cases H with
      | nil => rfl
      | cons a l => simp at hH
    simp [this, historyTurns]

theorem buildTurns_truthy (m : String) (H : List (String × String)) (s : String)
    (h : s ≠ "") :
    ArxivChatBot.buildTurns m H (some s)
      = ⟨"system", s⟩ :: (historyTurns H ++ [⟨"user", m⟩]) := by
  unfold ArxivChatBot.buildTurns
  have ht : optStrTruthy (some s) = true := by
    simp [optStrTruthy, h]
  rw [ht]
  by_cases hH : H.length > 0
  · simp [hH, foldl_turns_eq]
  · have : H = [] := by
      cases H with
      | nil => rfl
      | cons a l => simp at hH
    simp [this, historyTurns]

theorem groundingContent_wf (l : List RawPaper)
    (hwf : ∀ q ∈ l, hasGroundingFields q) :
    groundingContent l = Except.ok (groundingTextSpec l) := by
  induction l with
  | nil => rfl
  | cons q rest ih =>
    obtain ⟨ht, ha, hs⟩ := hwf q (List.mem_cons_self q rest)
    obtain ⟨t, ht⟩ := Option.isSome_iff_exists.mp ht
    obtain ⟨a, ha⟩ := Option.isSome_iff_exists.mp ha
    obtain ⟨ab, hs⟩ := Option.isSome_iff_exists.mp hs
    have ihr := ih (fun p hp => hwf p (List.mem_cons_of_mem q hp))
    simp [groundingContent, pyKey, ht, ha, hs, ihr, groundingTextSpec,
      groundingLineSpec]

theorem cardsFromIndex_wf (l : List RawPaper) (i : Nat)
    (hwf : ∀ q ∈ l, hasAllFields q) :
    cardsFromIndex i l = Except.ok (cardsTextSpecFrom i l) := by
  induction l generalizing i with
  | nil => rfl
  | cons q rest ih =>
    obtain ⟨ht, ha, hs, hu⟩ := hwf q (List.mem_cons_self q rest)
    obtain ⟨t, ht⟩ := Option.isSome_iff_exists.mp ht
    obtain ⟨a, ha⟩ := Option.isSome_iff_exists.mp ha
    obtain ⟨ab, hs⟩ := Option.isSome_iff_exists.mp hs
    obtain ⟨u, hu⟩ := Option.isSome_iff_exists.mp hu
    have ihr := ih (i + 1) (fun p hp => hwf p (List.mem_cons_of_mem q hp))
    simp [cardsFromIndex, pyKey, ht, ha, hs, hu, ihr, cardsTextSpecFrom,
      cardBlockSpec]

/-- C3: with an empty/absent system prompt the turn sequence is the history
replayed as alternating user/assistant pairs followed by the user message,
of length `2*len(H)+1` and with no leading system message; with a non-empty
system prompt the system message comes first and the length is
`2*len(H)+2`; both sequences end with a user message containing `m`. -/
theorem claim_turn_sequence (m : String) (H : List (String × String)) :
    (∀ sp : Option String, optStrTruthy sp = false →
      ArxivChatBot.buildTurns m H sp = historyTurns H ++ [⟨"user", m⟩]
      ∧ (ArxivChatBot.buildTurns m H sp).length = 2 * H.length + 1
      ∧ (∀ m0 : Message, (ArxivChatBot.buildTurns m H sp).head? = some m0 → m0.role = "user")
      ∧ (ArxivChatBot.buildTurns m H sp).getLast? = some ⟨"user", m⟩)
    ∧ (∀ s : String, s ≠ "" →
      ArxivChatBot.buildTurns m H (some s)
        = ⟨"system", s⟩ :: (historyTurns H ++ [⟨"user", m⟩])
      ∧ (ArxivChatBot.buildTurns m H (some s)).length = 2 * H.length + 2
      ∧ (ArxivChatBot.buildTurns m H (some s)).head? = some ⟨"system", s⟩
      ∧ (ArxivChatBot.buildTurns m H (some s)).getLast? = some ⟨"user", m⟩) := by
  constructor
  · intro sp hsp
    have he := buildTurns_not_truthy m H sp hsp
    refine ⟨he, ?_, ?_, ?_⟩
    · rw [he]; simp [length_historyTurns]
    · intro m0 hm0
      rw [he] at hm0
      cases H with
      | nil => simp [historyTurns] at hm0; rw [← hm0]
      | cons qr rest =>
        cases qr with
        | mk q r => simp [historyTurns] at hm0; rw [← hm0]
    · rw [he, List.getLast?_concat]
  · intro s hs
    have he := buildTurns_truthy m H s hs
    refine ⟨he, ?_, ?_, ?_⟩
    · rw [he]; simp [length_historyTurns]
    · rw [he]; rfl
    · rw [he, ← List.cons_append, List.getLast?_concat]

/-- C1: with falsy `papers` the grounding prompt is the message verbatim;
with a non-empty serialized list whose records carry the grounding fields,
it is the grounded-answer template filled with the message and the per-paper
three labelled lines separated by blank lines, in input order. -/
theorem claim_grounding_prompt (m : String) :
    (∀ p : Papers, p.truthy = false →
      ArxivChatBot._prepare_message_for_llm m p = Except.ok m)
    ∧ (∀ (s : String) (l : List RawPaper), s ≠ "" → json_loads s = some l →
        (∀ q ∈ l, hasGroundingFields q) →
        ArxivChatBot._prepare_message_for_llm m (Papers.pyStr s)
          = Except.ok (ARXIV_CHAT_TEMPLATE (groundingTextSpec l) m)) := by
  constructor
  · intro p hp
    simp [ArxivChatBot._prepare_message_for_llm, hp]
  · intro s l hs hl hwf
    have ht : (Papers.pyStr s).truthy = true := by
      simp [Papers.truthy, hs]
    simp [ArxivChatBot._prepare_message_for_llm, ht, hl, groundingContent_wf l hwf]

theorem claim_grounding_prompt_witness :
    ArxivChatBot._prepare_message_for_llm "q" (Papers.pyStr wJson)
      = Except.ok (ARXIV_CHAT_TEMPLATE (groundingTextSpec [wPaper]) "q") :=
  (claim_grounding_prompt "q").2 wJson [wPaper] (by decide) rfl
    (by
      intro q hq
      rw [List.mem_singleton] at hq
      subst hq
      exact ⟨rfl, rfl, rfl⟩)

/-- C2: every falsy `papers` value (in particular `None` and the empty
list) renders as the empty string with no container; consequently, when the
search tool returns an empty result, `chat` succeeds and its second
component is exactly `""` (and the grounding prompt of the final call is
the message itself). -/
theorem claim_render_cards_empty :
    (∀ p : Papers, p.truthy = false →
      ArxivChatBot._generate_paper_cards p = Except.ok "")
    ∧ ArxivChatBot._generate_paper_cards Papers.pyNone = Except.ok ""
    ∧ ArxivChatBot._generate_paper_cards (Papers.pyList []) = Except.ok ""
    ∧ (∀ (bot : ArxivChatBot) (m : String) (hc hsr : List (String × String))
        (g : Option GenerationConfig) (mr : Int) (st : Bool),
        (bot.tool.call (ArxivChatBot._chat bot m hsr (some ARXIV_SEARCH_PROMPT) g false) mr).truthy
            = false →
        (ArxivChatBot.chat bot m hc hsr g mr st).1
          = Except.ok (ArxivChatBot._chat bot m hc (some ARXIV_SYSTEM_PROMPT) g st, "",
              ArxivChatBot._chat bot m hsr (some ARXIV_SEARCH_PROMPT) g false)) := by
  refine ⟨?_, rfl, rfl, ?_⟩
  · intro p hp
    simp [ArxivChatBot._generate_paper_cards, hp]
  · intro bot m hc hsr g mr st hfalsy
    simp [ArxivChatBot.chat, ArxivChatBot._search_from_arxiv,
      ArxivChatBot._generate_paper_cards, ArxivChatBot._prepare_message_for_llm, hfalsy]

theorem claim_render_cards_empty_witness :
    (ArxivChatBot.chat wBotEmpty "q" [] [] none 5 true).1
      = Except.ok (ArxivChatBot._chat wBotEmpty "q" [] (some ARXIV_SYSTEM_PROMPT) none true, "",
          ArxivChatBot._chat wBotEmpty "q" [] (some ARXIV_SEARCH_PROMPT) none false) :=
  claim_render_cards_empty.2.2.2 wBotEmpty "q" [] [] none 5 true rfl

/-- C4: a non-empty serialized paper list whose records carry all four
fields renders as one card block per paper, in input order, numbered from 1,
each holding the linked title, comma-joined authors and summary, the
concatenation being wrapped exactly once in the scrollable container. -/
theorem claim_render_cards_nonempty (s : String) (l : List RawPaper)
    (hs : s ≠ "") (hl : json_loads s = some l) (_hne : l ≠ [])
    (hwf : ∀ q ∈ l, hasAllFields q) :
    ArxivChatBot._generate_paper_cards (Papers.pyStr s)
      = Except.ok (PAPER_CARD_MARKDOWN (cardsTextSpec l)) := by
  have ht : (Papers.pyStr s).truthy = true := by
    simp [Papers.truthy, hs]
  simp [ArxivChatBot._generate_paper_cards, ht, hl, cardsFromIndex_wf l 0 hwf,
    cardsTextSpec]

theorem claim_render_cards_nonempty_witness :
    ArxivChatBot._generate_paper_cards (Papers.pyStr wJson)
      = Except.ok (PAPER_CARD_MARKDOWN (cardsTextSpec [wPaper])) :=
  claim_render_cards_nonempty wJson [wPaper] (by decide) rfl (by decide)
    (by
      intro q hq
      rw [List.mem_singleton] at hq
      subst hq
      exact ⟨rfl, rfl, rfl, rfl⟩)

/-- C10: the emptiness test happens on the serialized text before
deserialization, so the non-empty text `"[]"` is not treated as empty: the
cards are the container wrapped around nothing (a non-empty string), and the
grounding prompt is the template filled with the empty grounding text, not
the message verbatim. -/
theorem claim_truthiness_before_parse :
    ArxivChatBot._generate_paper_cards (Papers.pyStr "[]")
      = Except.ok (PAPER_CARD_MARKDOWN "")
    ∧ PAPER_CARD_MARKDOWN "" ≠ ""
    ∧ (∀ m : String,
        ArxivChatBot._prepare_message_for_llm m (Papers.pyStr "[]")
          = Except.ok (ARXIV_CHAT_TEMPLATE "" m)
        ∧ ARXIV_CHAT_TEMPLATE "" m ≠ m) := by
  refine ⟨rfl, by decide, ?_⟩
  intro m
  refine ⟨rfl, ?_⟩
  intro heq
  have hlen := congrArg String.length heq
  simp only [ARXIV_CHAT_TEMPLATE, String.length_append] at hlen
  rw [show ("\n" : String).length = 1 from rfl] at hlen
  omega

theorem chat_result_unfold (bot : ArxivChatBot) (m : String)
    (hc hsr : List (String × String)) (g : Option GenerationConfig)
    (mr : Int) (st : Bool) :
    (ArxivChatBot.chat bot m hc hsr g mr st).1 =
      match ArxivChatBot._generate_paper_cards
          ((ArxivChatBot._search_from_arxiv bot m hsr g mr).1) with
      | Except.error e => Except.error e
      | Except.ok paper_cards =>
        match ArxivChatBot._prepare_message_for_llm m
            ((ArxivChatBot._search_from_arxiv bot m hsr g mr).1) with
        | Except.error e => Except.error e
        | Except.ok messaeg_for_llm =>
          Except.ok (ArxivChatBot._chat bot messaeg_for_llm hc
            (some ARXIV_SYSTEM_PROMPT) g st, paper_cards,
            (ArxivChatBot._search_from_arxiv bot m hsr g mr).2) := rfl

/-- C5: the search step invokes the model non-streaming on the turn
sequence built with the fixed search-intent system prompt, passes the raw
response verbatim to the tool together with `max_results`, and returns the
tool's result unparsed next to the raw response; whenever `chat` succeeds,
its third component is that raw intent text unchanged, whatever the stream
flag. -/
theorem claim_search_step (bot : ArxivChatBot) (m : String)
    (hsr : List (String × String)) (g : Option GenerationConfig) (mr : Int) :
    ArxivChatBot._search_from_arxiv bot m hsr g mr
      = (bot.tool.call
          (bot.llm.invoke (ArxivChatBot.buildTurns m hsr (some ARXIV_SEARCH_PROMPT)) g) mr,
         bot.llm.invoke (ArxivChatBot.buildTurns m hsr (some ARXIV_SEARCH_PROMPT)) g)
    ∧ (∀ (hc : List (String × String)) (st : Bool) (a c q : String),
        (ArxivChatBot.chat bot m hc hsr g mr st).1 = Except.ok (a, c, q) →
        q = bot.llm.invoke (ArxivChatBot.buildTurns m hsr (some ARXIV_SEARCH_PROMPT)) g) := by
  refine ⟨rfl, ?_⟩
  intro hc st a c q h
  rw [chat_result_unfold] at h
  cases hg : ArxivChatBot._generate_paper_cards
      ((ArxivChatBot._search_from_arxiv bot m hsr g mr).1) with
  | error e => rw [hg] at h; cases h
  | ok pc =>
    cases hp : ArxivChatBot._prepare_message_for_llm m
        ((ArxivChatBot._search_from_arxiv bot m hsr g mr).1) with
    | error e => rw [hg, hp] at h; cases h
    | ok mm =>
      rw [hg, hp] at h
      have := (Except.ok.injEq _ _).mp h
      exact (congrArg (fun t => t.2.2) this).symm

theorem claim_search_step_witness :
    "INTENT" = wBotEmpty.llm.invoke
        (ArxivChatBot.buildTurns "q" [] (some ARXIV_SEARCH_PROMPT)) none :=
  (claim_search_step wBotEmpty "q" [] none 5).2 [] true "ANSWER" "" "INTENT" rfl

/-- C6: when the engine identifier resolved from the config (the `engine`
entry, or `"openai"` when absent) is not a registered key, construction
fails with a key lookup error and its instantiation trace is empty: neither
the model nor the search tool is ever constructed. -/
theorem claim_unknown_engine (llm_registry : List (String × LLMFactory))
    (tool_registry : List (String × ToolFactory)) (llm_config : Option LLMConfig)
    (h : llm_registry.lookup (resolvedEngine llm_config) = none) :
    ArxivChatBot.construct llm_registry tool_registry llm_config
      = (Except.error (PyErr.keyError (resolvedEngine llm_config)), [])
    ∧ resolvedEngine none = "openai"
    ∧ (∀ (mo : Option String) (mc : Option ModelConfig),
        resolvedEngine (some ⟨none, mo, mc⟩) = "openai") := by
  refine ⟨?_, rfl, fun mo mc => rfl⟩
  have he : resolvedEngine llm_config
      = (match (ArxivChatBot.parse_llm_config llm_config).1 with
         | none => "openai"
         | some e => e) := rfl
  simp only [ArxivChatBot.construct, ArxivChatBot.setup_model, ← he, h]

theorem claim_unknown_engine_witness :
    ArxivChatBot.construct ([] : List (String × LLMFactory))
        ([] : List (String × ToolFactory)) none
      = (Except.error (PyErr.keyError "openai"), []) :=
  (claim_unknown_engine [] [] none rfl).1

theorem cardsFromIndex_missing (l : List RawPaper) (i : Nat)
    (hbad : ∃ q ∈ l, q.title = none ∨ q.authors = none ∨ q.summary = none
      ∨ q.pdf_url = none) :
    ∃ k, cardsFromIndex i l = Except.error (PyErr.keyError k) := by
  induction l generalizing i with
  | nil => obtain ⟨q, hq, _⟩ := hbad; cases hq
  | cons q rest ih =>
    cases ht : q.title with
    | none => exact ⟨"title", by simp [cardsFromIndex, pyKey, ht]⟩
    | some t =>
      cases ha : q.authors with
      | none => exact ⟨"authors", by simp [cardsFromIndex, pyKey, ht, ha]⟩
      | some a =>
        cases hsm : q.summary with
        | none => exact ⟨"summary", by simp [cardsFromIndex, pyKey, ht, ha, hsm]⟩
        | some ab =>
          cases hu : q.pdf_url with
          | none => exact ⟨"pdf_url", by simp [cardsFromIndex, pyKey, ht, ha, hsm, hu]⟩
          | some u =>
            obtain ⟨p, hp, hcase⟩ := hbad
            rcases List.mem_cons.mp hp with rfl | hmem
            · rw [ht, ha, hsm, hu] at hcase
              rcases hcase with h' | h' | h' | h' <;> cases h'
            · obtain ⟨k, hk⟩ := ih (i + 1) ⟨p, hmem, hcase⟩
              exact ⟨k, by simp [cardsFromIndex, pyKey, ht, ha, hsm, hu, hk]⟩

theorem groundingContent_missing (l : List RawPaper)
    (hbad : ∃ q ∈ l, q.title = none ∨ q.authors = none ∨ q.summary = none) :
    ∃ k, groundingContent l = Except.error (PyErr.keyError k) := by
  induction l with
  | nil => obtain ⟨q, hq, _⟩ := hbad; cases hq
  | cons q rest ih =>
    cases ht : q.title with
    | none => exact ⟨"title", by simp [groundingContent, pyKey, ht]⟩
    | some t =>
      cases ha : q.authors with
      | none => exact ⟨"authors", by simp [groundingContent, pyKey, ht, ha]⟩
      | some a =>
        cases hsm : q.summary with
        | none => exact ⟨"summary", by simp [groundingContent, pyKey, ht, ha, hsm]⟩
        | some ab =>
          obtain ⟨p, hp, hcase⟩ := hbad
          rcases List.mem_cons.mp hp with rfl | hmem
          · rw [ht, ha, hsm] at hcase
            rcases hcase with h' | h' | h' <;> cases h'
          · obtain ⟨k, hk⟩ := ih ⟨p, hmem, hcase⟩
            exact ⟨k, by simp [groundingContent, pyKey, ht, ha, hsm, hk]⟩

/-- C7 counterexample: for a record lacking only `pdf_url`, card formatting
fails with `KeyError` as claimed, but grounding-text formatting succeeds
(it never reads `pdf_url`), so it is false that both fail. -/
theorem claim_missing_field_counterexample :
    json_loads cexJson = some [cexPaper]
    ∧ cexPaper.pdf_url = none
    ∧ ArxivChatBot._generate_paper_cards (Papers.pyStr cexJson)
        = Except.error (PyErr.keyError "pdf_url")
    ∧ ArxivChatBot._prepare_message_for_llm "q" (Papers.pyStr cexJson)
        = Except.ok (ARXIV_CHAT_TEMPLATE (groundingLineSpec cexPaper) "q") :=
  ⟨rfl, rfl, rfl, rfl⟩

/-- C7 amended: for a deserialized paper list with a record lacking an
expected field, card formatting fails with an uncaught key error when any
of the four fields is missing, and grounding-text formatting fails with an
uncaught key error when `title`, `authors` or `summary` is missing
(`pdf_url` is not read there); no fallback or partial result is produced. -/
theorem claim_missing_field_amended (s : String) (l : List RawPaper) (m : String)
    (hl : json_loads s = some l) :
    ((∃ q ∈ l, q.title = none ∨ q.authors = none ∨ q.summary = none
        ∨ q.pdf_url = none) →
      ∃ k, ArxivChatBot._generate_paper_cards (Papers.pyStr s)
        = Except.error (PyErr.keyError k))
    ∧ ((∃ q ∈ l, q.title = none ∨ q.authors = none ∨ q.summary = none) →
      ∃ k, ArxivChatBot._prepare_message_for_llm m (Papers.pyStr s)
        = Except.error (PyErr.keyError k)) := by
  have hs : s ≠ "" := by
    intro hempty
    subst hempty
    rw [show json_loads "" = none from rfl] at hl
    cases hl
  have ht : (Papers.pyStr s).truthy = true := by
    simp [Papers.truthy, hs]
  constructor
  · intro hbad
    obtain ⟨k, hk⟩ := cardsFromIndex_missing l 0 hbad
    exact ⟨k, by simp [ArxivChatBot._generate_paper_cards, ht, hl, hk]⟩
  · intro hbad
    obtain ⟨k, hk⟩ := groundingContent_missing l hbad
    exact ⟨k, by simp [ArxivChatBot._prepare_message_for_llm, ht, hl, hk]⟩

theorem claim_missing_field_amended_witness :
    ∃ k, ArxivChatBot._generate_paper_cards (Papers.pyStr cexJson)
      = Except.error (PyErr.keyError k) :=
  (claim_missing_field_amended cexJson [cexPaper] "q" rfl).1
    ⟨cexPaper, List.mem_singleton.mpr rfl, Or.inr (Or.inr (Or.inr rfl))⟩

/-- C8: against fixed deterministic collaborators, a second `chat` call on
the bot returned by a first call with identical arguments produces the
identical result (and bot): the orchestration has no randomness and no
hidden state. -/
theorem claim_chat_deterministic (bot : ArxivChatBot) (m : String)
    (hc hsr : List (String × String)) (g : Option GenerationConfig)
    (mr : Int) (st : Bool) :
    ArxivChatBot.chat ((ArxivChatBot.chat bot m hc hsr g mr st).2) m hc hsr g mr st
      = ArxivChatBot.chat bot m hc hsr g mr st := rfl

/-- C9: a `chat` call leaves the bot exactly as constructed: the whole
state is returned unchanged, and in particular the model handle and the
tool handle are the ones from construction; the bot carries no other field
that could store history, a last answer or last papers. -/
theorem claim_chat_frame (bot : ArxivChatBot) (m : String)
    (hc hsr : List (String × String)) (g : Option GenerationConfig)
    (mr : Int) (st : Bool) :
    (ArxivChatBot.chat bot m hc hsr g mr st).2 = bot
    ∧ ((ArxivChatBot.chat bot m hc hsr g mr st).2).llm = bot.llm
    ∧ ((ArxivChatBot.chat bot m hc hsr g mr st).2).tool = bot.tool :=
  ⟨rfl, rfl, rfl⟩

theorem claim_turn_sequence_witness :
    ArxivChatBot.buildTurns "hi" [("q1", "r1")] (some "sys")
      = ⟨"system", "sys"⟩ :: (historyTurns [("q1", "r1")] ++ [⟨"user", "hi"⟩]) :=
  (((claim_turn_sequence "hi" [("q1", "r1")]).2) "sys" (by decide)).1

theorem claim_truthiness_before_parse_witness :
    ArxivChatBot._prepare_message_for_llm "q" (Papers.pyStr "[]")
      = Except.ok (ARXIV_CHAT_TEMPLATE "" "q") :=
  (claim_truthiness_before_parse.2.2 "q").1
